import Mathlib

/-!
Verification of the Android E2E agent runner against its design document.

This file shallowly embeds the Python sources of the repository:

* `source/actions.py` — `execute_command` and `map_computer_action`;
* `source/agent_runner.py` — the per-sub-goal agent control loop
  (repetition guard, end-test handling, turn budget, sub-goal sequencing);
* `source/android_framework.py` — `_sanitize_text_for_adb_input`;
* `source/llm/claude_provider.py` — `_normalize_action`;
* `source/types.py` — `ScreenInfo` canvas dimensions.

Python dictionaries coming from JSON / model payloads are embedded as the
inductive `PyVal`; the Android device is abstracted as a trace of the
device-interface operations it is asked to perform (subprocess-level helper
queries such as `wm size` / `dumpsys`, raw-response persistence, report and
video writing are outside the device interface and are not traced).
Python exceptions are modelled with `Except PyErr`.
-/

/-- Embedding of the Python/JSON values that flow through the action
dictionaries: `None`, booleans, integers, strings, lists and string-keyed
dictionaries (association lists; lookup takes the first binding). -/
inductive PyVal where
  | none
  | bool (b : Bool)
  | int (n : Int)
  | str (s : String)
  | list (xs : List PyVal)
  | dict (xs : List (String × PyVal))

/-- A Python dictionary payload: ordered association list. -/
abbrev PyDict := List (String × PyVal)

/-- Embedded Python exceptions (constructor = exception class, argument =
message or offending key). -/
inductive PyErr where
  | keyError (key : String)
  | typeError (msg : String)
  | valueError (msg : String)
deriving DecidableEq

/-- `d.get(k)` collapsed with Python's absent-vs-None: a missing key and an
explicit `None` value are indistinguishable to the `is None` checks the code
performs, both yield `PyVal.none`. -/
def pyGet (d : PyDict) (k : String) : PyVal :=
  match d.find? (fun kv => kv.fst = k) with
  | Option.none => PyVal.none
  | Option.some kv => kv.snd

/-- `d.get(k, default)`. -/
def pyGetD (d : PyDict) (k : String) (dflt : PyVal) : PyVal :=
  match d.find? (fun kv => kv.fst = k) with
  | Option.none => dflt
  | Option.some kv => kv.snd

/-- `d.get(k)` keeping the absent case (used where the code distinguishes
`"x" in action` key presence from the value). -/
def pyLookup (d : PyDict) (k : String) : Option PyVal :=
  (d.find? (fun kv => kv.fst = k)).map Prod.snd

/-- `k in d` key-presence test. -/
def pyHasKey (d : PyDict) (k : String) : Bool :=
  (d.find? (fun kv => kv.fst = k)).isSome

/-- Python truthiness `bool(v)`. -/
def pyTruthy : PyVal → Bool
  | PyVal.none => false
  | PyVal.bool b => b
  | PyVal.int n => n ≠ 0
  | PyVal.str s => s ≠ ""
  | PyVal.list xs => ¬ xs.isEmpty
  | PyVal.dict xs => ¬ xs.isEmpty

/-- Python `a or b`. -/
def pyOr (a b : PyVal) : PyVal :=
  if pyTruthy a then a else b

mutual

/-- Python `str(v)` (element reprs inside containers are approximated with
a quote-wrapping repr for strings, faithful for the flat payloads the
runner handles). -/
def pyToStr : PyVal → String
  | PyVal.none => "None"
  | PyVal.bool b => if b then "True" else "False"
  | PyVal.int n => toString n
  | PyVal.str s => s
  | PyVal.list xs => "[" ++ ", ".intercalate (pyToStrList xs) ++ "]"
  | PyVal.dict _ => "\x7b...\x7d"

def pyToStrList : List PyVal → List String
  | [] => []
  | PyVal.str s :: xs => ("'" ++ s ++ "'") :: pyToStrList xs
  | x :: xs => pyToStr x :: pyToStrList xs

end

/-- Python `str.strip()` whitespace, as accepted around numeric literals. -/
def isPySpace (c : Char) : Bool :=
  c = ' ' ∨ c = '\t' ∨ c = '\n' ∨ c = '\x0d' ∨ c = '\x0b' ∨ c = '\x0c'

/-- Value of a decimal digit character. -/
def digitVal (c : Char) : Option Nat :=
  if '0' ≤ c ∧ c ≤ '9' then Option.some (c.toNat - '0'.toNat) else Option.none

/-- Accumulate decimal digits; fails on a non-digit. -/
def natDigitsAux : List Char → Nat → Option Nat
  | [], acc => Option.some acc
  | c :: cs, acc =>
      match digitVal c with
      | Option.some d => natDigitsAux cs (acc * 10 + d)
      | Option.none => Option.none

/-- Parse a non-empty run of decimal digits. -/
def natDigits : List Char → Option Nat
  | [] => Option.none
  | cs => natDigitsAux cs 0

/-- Parse an optionally signed run of decimal digits. -/
def parseSignedDigits : List Char → Option Int
  | '+' :: rest => (natDigits rest).map Int.ofNat
  | '-' :: rest => (natDigits rest).map (fun n => -(n : Int))
  | rest => (natDigits rest).map Int.ofNat

/-- Strip leading and trailing whitespace. -/
def stripSpaces (cs : List Char) : List Char :=
  ((cs.dropWhile isPySpace).reverse.dropWhile isPySpace).reverse

/-- `int(s)` for strings: optional surrounding whitespace, an optional
sign, then decimal digits (Python's underscore digit separators are not
modelled). -/
def pyIntOfString (s : String) : Option Int :=
  parseSignedDigits (stripSpaces s.data)

/-- Message of Python's `int(str)` parse failure. -/
def intParseMsg (s : String) : String :=
  "invalid literal for int() with base 10: '" ++ s ++ "'"

/-- Python `int(v)` for the value kinds that can reach the conversion sites
(whitespace-trimmed decimal strings, ints, bools; everything else raises). -/
def pyInt : PyVal → Except PyErr Int
  | PyVal.int n => Except.ok n
  | PyVal.bool b => Except.ok (if b then 1 else 0)
  | PyVal.str s =>
      match pyIntOfString s with
      | Option.some n => Except.ok n
      | Option.none => Except.error (PyErr.valueError (intParseMsg s))
  | PyVal.none => Except.error (PyErr.typeError "int() argument is not a string or a number")
  | PyVal.list _ => Except.error (PyErr.typeError "int() argument is not a string or a number")
  | PyVal.dict _ => Except.error (PyErr.typeError "int() argument is not a string or a number")

/-- Split a character list at the dots. -/
def splitOnDot : List Char → List (List Char)
  | [] => [[]]
  | '.' :: rest => [] :: splitOnDot rest
  | c :: rest =>
      match splitOnDot rest with
      | h :: t => (c :: h) :: t
      | [] => [[c]]

/-- Whether a string is accepted by Python `float(...)` — abstracted to the
signed decimal integer and simple `a.b` decimal-point literals that occur
in test specs. -/
def floatLitOk (s : String) : Bool :=
  match splitOnDot (stripSpaces s.data) with
  | [a] => (parseSignedDigits a).isSome
  | [a, b] => (parseSignedDigits a).isSome ∧ (natDigits b).isSome
  | _ => false

/-- Python `float(v)` used only as a validity check (the numeric value is
never inspected by any proved property; the unconverted `PyVal` is carried
in the trace instead). -/
def pyFloatCheck : PyVal → Except PyErr Unit
  | PyVal.int _ => Except.ok ()
  | PyVal.bool _ => Except.ok ()
  | PyVal.str s =>
      if floatLitOk s then Except.ok ()
      else Except.error (PyErr.valueError ("could not convert string to float: '" ++ s ++ "'"))
  | PyVal.none => Except.error (PyErr.typeError "float() argument is not a string or a number")
  | PyVal.list _ => Except.error (PyErr.typeError "float() argument is not a string or a number")
  | PyVal.dict _ => Except.error (PyErr.typeError "float() argument is not a string or a number")

/-! ## `android_framework.py` — text sanitisation (`_sanitize_text_for_adb_input`) -/

/-- The allow-list of `re.compile(r"[^A-Za-z0-9_%@.,:\-]")`: ASCII letters,
digits, and the punctuation `_ % @ . , : -`. -/
def safeChar (c : Char) : Bool :=
  ('A' ≤ c ∧ c ≤ 'Z') ∨ ('a' ≤ c ∧ c ≤ 'z') ∨ ('0' ≤ c ∧ c ≤ '9') ∨
    c = '_' ∨ c = '%' ∨ c = '@' ∨ c = '.' ∨ c = ',' ∨ c = ':' ∨ c = '-'

/-- `text.replace(" ", "%s")` at the character-list level. -/
def replaceSpaces : List Char → List Char
  | [] => []
  | c :: cs => (if c = ' ' then ['%', 's'] else [c]) ++ replaceSpaces cs

/-- `safe.sub("_", text)`: every character outside the allow-list becomes
the `'_'` placeholder. -/
def subUnsafe (cs : List Char) : List Char :=
  cs.map (fun c => if safeChar c then c else '_')

/-- `_sanitize_text_for_adb_input` (android_framework.py:74-87): replace
spaces with the `%s` escape token, then replace every character outside the
allow-list with `'_'`. -/
def sanitizeChars (cs : List Char) : List Char :=
  subUnsafe (replaceSpaces cs)

/-- String-level wrapper, as called by `AndroidDevice.input_text`. -/
def _sanitize_text_for_adb_input (s : String) : String :=
  String.mk (sanitizeChars s.data)

/-! ## `types.py` — `ScreenInfo` canvas dimensions -/

/-- `ScreenInfo` dataclass (types.py:37-53). -/
structure ScreenInfo where
  physical_width : Int
  physical_height : Int
  rotation_deg : Int

/-- `ScreenInfo.canvas_width`. -/
def ScreenInfo.canvas_width (si : ScreenInfo) : Int :=
  if si.rotation_deg = 90 ∨ si.rotation_deg = 270 then si.physical_height
  else si.physical_width

/-- `ScreenInfo.canvas_height`. -/
def ScreenInfo.canvas_height (si : ScreenInfo) : Int :=
  if si.rotation_deg = 90 ∨ si.rotation_deg = 270 then si.physical_width
  else si.physical_height

/-- The same computation inlined in the agent loop (agent_runner.py:340-343
and 372-377): `if rotation in (90, 270): dev_w, dev_h = phy_h, phy_w`. -/
def canvasDims (phyW phyH rotation : Int) : Int × Int :=
  if rotation = 90 ∨ rotation = 270 then (phyH, phyW) else (phyW, phyH)

/-! ## Canonical action signature — `json.dumps(action, sort_keys=True)` -/

/-- Lexicographic code-point comparison on character lists (the order
`sort_keys=True` sorts by). -/
def charListLt : List Char → List Char → Bool
  | [], [] => false
  | [], _ :: _ => true
  | _ :: _, [] => false
  | a :: as, b :: bs =>
      if a.toNat < b.toNat then true
      else if b.toNat < a.toNat then false
      else charListLt as bs

/-- Lexicographic string comparison. -/
def strLt (a b : String) : Bool := charListLt a.data b.data

/-- Insertion of a rendered key/value pair into a key-sorted list, dropping
a later binding of the same key (Python dicts cannot hold duplicate keys;
the payloads built by the providers never repeat a key). -/
def insertRendered (kv : String × String) : List (String × String) → List (String × String)
  | [] => [kv]
  | kv₂ :: rest =>
      if strLt kv.fst kv₂.fst then kv :: kv₂ :: rest
      else if kv.fst = kv₂.fst then kv :: rest
      else kv₂ :: insertRendered kv rest

/-- Sort rendered bindings by key (for `sort_keys=True`). -/
def sortRendered : List (String × String) → List (String × String)
  | [] => []
  | kv :: rest => insertRendered kv (sortRendered rest)

/-- Minimal JSON string escaping (backslash and double quote). -/
def jsonEscape (s : String) : String :=
  String.mk (s.data.flatMap (fun c =>
    if c = '\\' then ['\\', '\\'] else if c = '"' then ['\\', '"'] else [c]))

mutual

/-- `json.dumps(v, sort_keys=True)` — the canonical serialisation the loop
uses as a repetition signature (agent_runner.py:417). Rendering a value does
not depend on binding order, so sorting the rendered bindings by key equals
sorting the keys first. -/
def jsonDumps : PyVal → String
  | PyVal.none => "null"
  | PyVal.bool b => if b then "true" else "false"
  | PyVal.int n => toString n
  | PyVal.str s => "\"" ++ jsonEscape s ++ "\""
  | PyVal.list xs => "[" ++ ", ".intercalate (jsonDumpsList xs) ++ "]"
  | PyVal.dict xs =>
      "\x7b" ++ ", ".intercalate ((sortRendered (jsonDumpsBindings xs)).map
        (fun kv => "\"" ++ jsonEscape kv.fst ++ "\": " ++ kv.snd)) ++ "\x7d"

def jsonDumpsList : List PyVal → List String
  | [] => []
  | x :: xs => jsonDumps x :: jsonDumpsList xs

def jsonDumpsBindings : List (String × PyVal) → List (String × String)
  | [] => []
  | kv :: xs => (kv.fst, jsonDumps kv.snd) :: jsonDumpsBindings xs

end

/-! ## Device interface trace (`AndroidDevice` operations) -/

/-- One operation requested of the device-control interface. `inputText`
carries the sanitised payload (`AndroidDevice.input_text` sanitises before
issuing the shell command, android_framework.py:288-290). `waitSeconds`
carries the unconverted spec value (only `float()` convertibility is
checked); `waitBetweenActions` is the fixed inter-action settle delay
`WAIT_BETWEEN_ACTIONS` of the agent loop. -/
inductive DeviceOp where
  | tap (x y : Int)
  | swipe (x1 y1 x2 y2 durationMs : Int)
  | inputText (sanitized : String)
  | keyevent (code : String)
  | back
  | home
  | screenshot
  | screenshotMarker (x y : Int)
  | waitSeconds (v : PyVal)
  | waitBetweenActions
  | launchApp (pkg : String) (activity : PyVal)
  | stopApp (pkg : String)

/-! ## `actions.py` — `execute_command` -/

/-- `step[k]`: Python subscript, raising `KeyError` when the key is absent. -/
def pySubscript (d : PyDict) (k : String) : Except PyErr PyVal :=
  match pyLookup d k with
  | Option.none => Except.error (PyErr.keyError k)
  | Option.some v => Except.ok v

/-- `Path(step["path"])`: `Path()` accepts a string and raises `TypeError`
otherwise. -/
def pyPathCheck : PyVal → Except PyErr Unit
  | PyVal.str _ => Except.ok ()
  | _ => Except.error (PyErr.typeError "argument should be a str or an os.PathLike object")

/-- `execute_command(device, step, package)` (actions.py:16-51). The result
is the ordered list of device operations performed; a raised exception is an
`Except.error` and performs none of the remaining operations. -/
def execute_command (step : PyDict) (package : String) : Except PyErr (List DeviceOp) :=
  let cmd := pyGet step "cmd"
  if ¬ pyTruthy cmd then Except.ok []
  else match cmd with
    | PyVal.str "wait" => do
        let v := pyGetD step "seconds" (PyVal.int 1)
        let _ ← pyFloatCheck v
        Except.ok [DeviceOp.waitSeconds v]
    | PyVal.str "tap" => do
        let xv ← pySubscript step "x"
        let x ← pyInt xv
        let yv ← pySubscript step "y"
        let y ← pyInt yv
        Except.ok [DeviceOp.tap x y]
    | PyVal.str "swipe" => do
        let x1 ← pySubscript step "x1" >>= pyInt
        let y1 ← pySubscript step "y1" >>= pyInt
        let x2 ← pySubscript step "x2" >>= pyInt
        let y2 ← pySubscript step "y2" >>= pyInt
        let dur ← pyInt (pyGetD step "duration_ms" (PyVal.int 300))
        Except.ok [DeviceOp.swipe x1 y1 x2 y2 dur]
    | PyVal.str "input_text" => do
        let t ← pySubscript step "text"
        Except.ok [DeviceOp.inputText (_sanitize_text_for_adb_input (pyToStr t))]
    | PyVal.str "keyevent" =>
        Except.ok [DeviceOp.keyevent (pyToStr (pyOr (pyGet step "code") (pyGet step "name")))]
    | PyVal.str "back" => Except.ok [DeviceOp.back]
    | PyVal.str "home" => Except.ok [DeviceOp.home]
    | PyVal.str "screenshot" => do
        let p ← pySubscript step "path"
        let _ ← pyPathCheck p
        Except.ok [DeviceOp.screenshot]
    | PyVal.str "launch" =>
        Except.ok [DeviceOp.launchApp (pyToStr (pyGetD step "package" (PyVal.str package)))
          (pyGet step "activity")]
    | PyVal.str "stop" =>
        Except.ok [DeviceOp.stopApp (pyToStr (pyGetD step "package" (PyVal.str package)))]
    | _ => Except.error (PyErr.valueError ("Unknown command: " ++ pyToStr cmd))

/-! ## `actions.py` — `map_computer_action` -/

/-- `v is None`. Because `pyGet` collapses an absent key to `PyVal.none`
(exactly what `dict.get` does), this is the `action.get(k) is None` test. -/
def pyIsNone : PyVal → Bool
  | PyVal.none => true
  | _ => false

/-- The drag branch's coordinate resolution (actions.py:72-87): start from
`x`,`y`,`x2`,`y2`; when an end coordinate is missing try to derive all four
from the first and last entry of a `path` list. The Python `try/except:
pass` around the four assignments keeps whatever was assigned before the
first `AttributeError` (a non-dict path element), which the nested matches
reproduce. -/
def resolveDragCoords (action : PyDict) : PyVal × PyVal × PyVal × PyVal :=
  let x := pyGet action "x"
  let y := pyGet action "y"
  let x2 := pyGet action "x2"
  let y2 := pyGet action "y2"
  if pyIsNone x2 ∨ pyIsNone y2 then
    match pyGet action "path" with
    | PyVal.list path =>
        if path.length ≥ 2 then
          match path.head?, path.getLast? with
          | Option.some first, Option.some last =>
              match first with
              | PyVal.dict ds =>
                  let x := pyGetD ds "x" x
                  let y := pyGetD ds "y" y
                  match last with
                  | PyVal.dict es => (x, y, pyGet es "x", pyGet es "y")
                  | _ => (x, y, x2, y2)
              | _ => (x, y, x2, y2)
          | _, _ => (x, y, x2, y2)
        else (x, y, x2, y2)
    | _ => (x, y, x2, y2)
  else (x, y, x2, y2)

/-- The scroll branch's horizontal delta (actions.py:93-96): `dx`, falling
back to `scroll_x` when `dx` is `None`/absent. -/
def scrollDx (action : PyDict) : PyVal :=
  let dx := pyGet action "dx"
  if pyIsNone dx then pyGet action "scroll_x" else dx

/-- The scroll branch's vertical delta (actions.py:97-98): `dy`, falling
back to `scroll_y`. -/
def scrollDy (action : PyDict) : PyVal :=
  let dy := pyGet action "dy"
  if pyIsNone dy then pyGet action "scroll_y" else dy

/-- `map_computer_action(device, action)` (actions.py:54-120). Result: the
optional status string returned, paired with the device operations
performed; `Except.error` models a raised exception (the `int()`
conversions can raise). The `time.sleep(0.1)` between the two taps of a
double click is a plain sleep, not a device-interface call, and is not
traced. -/
def map_computer_action (action : PyDict) : Except PyErr (Option String × List DeviceOp) :=
  let atype := pyGet action "type"
  let x := pyGet action "x"
  let y := pyGet action "y"
  match atype with
  | PyVal.str "click" =>
      if pyIsNone x ∨ pyIsNone y then Except.ok (Option.some "error: missing coordinates", [])
      else do
        let xi ← pyInt x
        let yi ← pyInt y
        Except.ok (Option.some "success", [DeviceOp.tap xi yi])
  | PyVal.str "double_click" =>
      if pyIsNone x ∨ pyIsNone y then Except.ok (Option.some "error: missing coordinates", [])
      else do
        let xi ← pyInt x
        let yi ← pyInt y
        Except.ok (Option.some "success", [DeviceOp.tap xi yi, DeviceOp.tap xi yi])
  | PyVal.str "drag" => do
      let dur ← pyInt (pyGetD action "duration_ms" (PyVal.int 300))
      let r := resolveDragCoords action
      if pyIsNone r.1 ∨ pyIsNone r.2.1 ∨ pyIsNone r.2.2.1 ∨ pyIsNone r.2.2.2 then
        Except.ok (Option.some "error: missing drag coordinates", [])
      else do
        let xi ← pyInt r.1
        let yi ← pyInt r.2.1
        let xi2 ← pyInt r.2.2.1
        let yi2 ← pyInt r.2.2.2
        Except.ok (Option.some "success", [DeviceOp.swipe xi yi xi2 yi2 dur])
  | PyVal.str "scroll" => do
      let dx := scrollDx action
      let dy := scrollDy action
      let dur ← pyInt (pyGetD action "duration_ms" (PyVal.int 300))
      if pyIsNone x ∨ pyIsNone y ∨ pyIsNone dx ∨ pyIsNone dy then
        Except.ok (Option.some "error: missing scroll parameters", [])
      else do
        let xi ← pyInt x
        let yi ← pyInt y
        let dxi ← pyInt dx
        let dyi ← pyInt dy
        Except.ok (Option.some "success", [DeviceOp.swipe xi yi (xi + dxi) (yi + dyi) dur])
  | PyVal.str "type" =>
      let text := pyGetD action "text" (PyVal.str "")
      Except.ok (Option.some "success",
        [DeviceOp.inputText (_sanitize_text_for_adb_input (pyToStr text))])
  | PyVal.str "key" =>
      let key := pyToStr (pyOr (pyOr (pyGet action "key") (pyGet action "code")) (PyVal.str ""))
      if key = "" then Except.ok (Option.some "error: missing key", [])
      else Except.ok (Option.some "success", [DeviceOp.keyevent key])
  | PyVal.str "wait" => do
      let v := pyGetD action "seconds" (PyVal.int 1)
      let _ ← pyFloatCheck v
      Except.ok (Option.some "success", [DeviceOp.waitSeconds v])
  | PyVal.str "screenshot" => Except.ok (Option.some "success", [])
  | _ => Except.ok (Option.none, [])

/-! ## `llm/claude_provider.py` — `_normalize_action` -/

/-- Python tuple/list destructuring `x, y = v` into exactly two names.
A two-element list (or the `(0, 0)` default tuple, embedded as a
two-element list) unpacks; wrong arity raises `ValueError`; a two-character
string unpacks into its characters; non-iterables raise `TypeError`;
unpacking a dict yields its keys. -/
def pyUnpack2 : PyVal → Except PyErr (PyVal × PyVal)
  | PyVal.list [a, b] => Except.ok (a, b)
  | PyVal.list xs =>
      if xs.length < 2 then Except.error (PyErr.valueError "not enough values to unpack (expected 2)")
      else Except.error (PyErr.valueError "too many values to unpack (expected 2)")
  | PyVal.str s =>
      match s.data with
      | [c₁, c₂] => Except.ok (PyVal.str (String.mk [c₁]), PyVal.str (String.mk [c₂]))
      | cs =>
          if cs.length < 2 then Except.error (PyErr.valueError "not enough values to unpack (expected 2)")
          else Except.error (PyErr.valueError "too many values to unpack (expected 2)")
  | PyVal.dict ds =>
      match ds with
      | [kv₁, kv₂] => Except.ok (PyVal.str kv₁.fst, PyVal.str kv₂.fst)
      | _ =>
          if ds.length < 2 then Except.error (PyErr.valueError "not enough values to unpack (expected 2)")
          else Except.error (PyErr.valueError "too many values to unpack (expected 2)")
  | PyVal.none => Except.error (PyErr.typeError "cannot unpack non-iterable NoneType object")
  | PyVal.bool _ => Except.error (PyErr.typeError "cannot unpack non-iterable bool object")
  | PyVal.int _ => Except.error (PyErr.typeError "cannot unpack non-iterable int object")

/-- The `(0, 0)` fallback tuple. -/
def zeroPair : PyVal := PyVal.list [PyVal.int 0, PyVal.int 0]

/-- `_normalize_action(inp)` (claude_provider.py:33-82): convert a Claude
computer-use payload into the common format consumed by
`map_computer_action`, with `_SCROLL_STEP = 100`. -/
def _normalize_action (inp : PyDict) : Except PyErr PyDict :=
  let action := pyGetD inp "action" (PyVal.str "")
  let coord := pyGet inp "coordinate"
  match action with
  | PyVal.str "left_click" | PyVal.str "right_click" | PyVal.str "middle_click" => do
      let xy ← pyUnpack2 (pyOr coord zeroPair)
      Except.ok [("type", PyVal.str "click"), ("x", xy.1), ("y", xy.2)]
  | PyVal.str "double_click" => do
      let xy ← pyUnpack2 (pyOr coord zeroPair)
      Except.ok [("type", PyVal.str "double_click"), ("x", xy.1), ("y", xy.2)]
  | PyVal.str "type" =>
      Except.ok [("type", PyVal.str "type"), ("text", pyGetD inp "text" (PyVal.str ""))]
  | PyVal.str "key" =>
      Except.ok [("type", PyVal.str "key"), ("key", pyGetD inp "text" (PyVal.str ""))]
  | PyVal.str "scroll" => do
      let xy ← pyUnpack2 (pyOr coord zeroPair)
      let direction := pyGetD inp "scroll_direction" (PyVal.str "down")
      let amount ← pyInt (pyGetD inp "scroll_amount" (PyVal.int 3))
      let sxy : Int × Int :=
        match direction with
        | PyVal.str "down" => (0, amount * 100)
        | PyVal.str "up" => (0, -(amount * 100))
        | PyVal.str "right" => (amount * 100, 0)
        | PyVal.str "left" => (-(amount * 100), 0)
        | _ => (0, 0)
      Except.ok [("type", PyVal.str "scroll"), ("x", xy.1), ("y", xy.2),
        ("scroll_x", PyVal.int sxy.1), ("scroll_y", PyVal.int sxy.2)]
  | PyVal.str "left_click_drag" => do
      let startC := pyGet inp "start_coordinate"
      let sxy ← pyUnpack2 (pyOr startC (pyOr coord zeroPair))
      let exy ← pyUnpack2 (pyOr coord zeroPair)
      let exy ← if pyTruthy startC then pyUnpack2 (pyOr coord (PyVal.list [exy.1, exy.2]))
                else Except.ok exy
      Except.ok [("type", PyVal.str "drag"), ("x", sxy.1), ("y", sxy.2),
        ("x2", exy.1), ("y2", exy.2)]
  | PyVal.str "screenshot" => Except.ok [("type", PyVal.str "screenshot")]
  | PyVal.str "wait" => Except.ok [("type", PyVal.str "wait")]
  | _ => Except.ok [("type", PyVal.str "screenshot")]

/-! ## `agent_runner.py` — the agent control loop

The loop's environment (the LLM backend) is modelled as a function from the
global turn index to the list of output items `provider.create_turn`
returns for that turn; the device is the operation trace. Resolution /
rotation queries (`wm size`, `dumpsys`), raw-response persistence, video
recording, logcat capture and report writing are not device-interface
operations and are not traced. -/

/-- `LLMOutputItem` (llm/base.py): reasoning text, a computer-use action
payload, or an end-test signal. `success` is `Option Bool` because the
dataclass field defaults to `None`; the loop only tests its truthiness. -/
inductive LLMItem where
  | reasoning (text : String)
  | computerAction (action : PyDict)
  | endTest (success : Option Bool)

/-- Per-sub-goal mutable state of `run_agent` (agent_runner.py:361-366 and
the per-turn locals), plus the accumulated device trace and log lines. -/
structure LoopSt where
  finished : Bool
  explicitSuccess : Option Bool
  lastSig : Option String
  repeatCount : Nat
  turnsThisSub : Nat
  executedAny : Bool
  actionsThisTurn : Nat
  trace : List DeviceOp
  logs : List String

/-- `action.get("type") in ("click", "double_click")`. -/
def isClickType : PyVal → Bool
  | PyVal.str "click" => true
  | PyVal.str "double_click" => true
  | _ => false

/-- The pre-click marker screenshot (agent_runner.py:430-450): taken for a
click / double-click action whose dict has both `x` and `y` keys; the whole
block is wrapped in `try/except`, so an `int()` failure just skips the
marker. The web-report event appended there is report data, not a device
operation. -/
def markerOps (a : PyDict) : List DeviceOp :=
  if isClickType (pyGet a "type") ∧ pyHasKey a "x" ∧ pyHasKey a "y" then
    match pyInt (pyGet a "x"), pyInt (pyGet a "y") with
    | Except.ok cx, Except.ok cy => [DeviceOp.screenshotMarker cx cy]
    | _, _ => []
  else []

/-- The `for output_item in turn_result.items` body (agent_runner.py:406-485)
with its early `break` on a successful end-test. An exception raised by
`map_computer_action` propagates (`Except.error`). -/
def processItems : List LLMItem → LoopSt → Except PyErr LoopSt
  | [], st => Except.ok st
  | LLMItem.reasoning t :: rest, st =>
      processItems rest { st with
        logs := st.logs ++ (if t = "" then [] else ["[Agent] Reasoning: " ++ t]) }
  | LLMItem.computerAction a :: rest, st =>
      let sig := jsonDumps (PyVal.dict a)
      let rls : Nat × Option String :=
        if Option.some sig = st.lastSig then (st.repeatCount + 1, st.lastSig)
        else (0, Option.some sig)
      if rls.1 ≥ 10 then
        processItems rest { st with
          repeatCount := 0,
          lastSig := rls.2,
          trace := st.trace ++ [DeviceOp.keyevent "4", DeviceOp.waitBetweenActions],
          logs := st.logs ++ ["[Agent] Action: " ++ sig,
            "[Agent] Detected repeated action. Sending BACK to escape loop."] }
      else
        match map_computer_action a with
        | Except.error e => Except.error e
        | Except.ok mres =>
            processItems rest { st with
              repeatCount := rls.1,
              lastSig := rls.2,
              executedAny := true,
              actionsThisTurn := st.actionsThisTurn + 1,
              trace := st.trace ++ markerOps a ++ mres.2 ++ [DeviceOp.waitBetweenActions],
              logs := st.logs ++ ["[Agent] Action: " ++ sig] }
  | LLMItem.endTest s :: rest, st =>
      if s.getD false then
        Except.ok { st with
          finished := true,
          explicitSuccess := Option.some true,
          trace := st.trace ++ [DeviceOp.screenshot],
          logs := st.logs ++ ["[Agent] end_test tool called. success=True"] }
      else
        processItems rest { st with
          logs := st.logs ++
            ["[Agent] Ignored end_test call with success=false; continuing without finishing."] }

/-- The `while turns_this_sub < MAX_AGENT_STEPS and not finished` loop
(agent_runner.py:368-506). `fuel` is the remaining turn budget
(`MAX_AGENT_STEPS - turns_this_sub`), `g` the global turn index; the result
pairs the final sub-goal state with the new global index. When a turn does
not finish the sub-goal, a fresh observation screenshot is captured for the
next user message (OBSERVE). -/
def runTurns (resp : Nat → List LLMItem) : Nat → Nat → LoopSt → Except PyErr (LoopSt × Nat)
  | 0, g, st => Except.ok (st, g)
  | Nat.succ fuel, g, st =>
      if st.finished then Except.ok (st, g)
      else
        let st₁ := { st with
          turnsThisSub := st.turnsThisSub + 1,
          executedAny := false,
          actionsThisTurn := 0,
          logs := st.logs ++ ["[Agent] Turn " ++ toString (st.turnsThisSub + 1)] }
        match processItems (resp (g + 1)) st₁ with
        | Except.error e => Except.error e
        | Except.ok st₂ =>
            if st₂.finished then
              Except.ok ({ st₂ with logs := st₂.logs ++ ["[Agent] Substep finished. success=True"] },
                g + 1)
            else
              runTurns resp fuel (g + 1) { st₂ with
                trace := st₂.trace ++ [DeviceOp.screenshot],
                logs := st₂.logs ++ ["[Agent] turn executed actions"] }

/-- Outcome of one sub-goal, as recorded in `substep_results`
(agent_runner.py:509-517; goal texts elided). -/
structure SubRes where
  index : Nat
  ok : Bool
  turns : Nat

/-- Result of running one sub-goal: its recorded outcome, the new global
turn index, and the accumulated trace and logs. -/
structure SubOut where
  res : SubRes
  g : Nat
  trace : List DeviceOp
  logs : List String

/-- Fresh per-sub-goal state (agent_runner.py:362-366). -/
def initLoopSt (trace : List DeviceOp) (logs : List String) : LoopSt :=
  { finished := false, explicitSuccess := Option.none, lastSig := Option.none,
    repeatCount := 0, turnsThisSub := 0, executedAny := false, actionsThisTurn := 0,
    trace := trace, logs := logs }

/-- One pass of the `for sub_idx, sub in enumerate(steps_spec, start=1)` body
(agent_runner.py:323-517): INIT screenshot, the turn loop, then
`sub_ok = bool(explicit_success) if explicit_success is not None else False`. -/
def runSubstep (resp : Nat → List LLMItem) (maxSteps : Nat) (idx g : Nat)
    (trace : List DeviceOp) (logs : List String) : Except PyErr SubOut :=
  match runTurns resp maxSteps g (initLoopSt (trace ++ [DeviceOp.screenshot]) logs) with
  | Except.error e => Except.error e
  | Except.ok r =>
      Except.ok { res := { index := idx, ok := r.1.explicitSuccess.getD false,
                           turns := r.1.turnsThisSub },
                  g := r.2, trace := r.1.trace, logs := r.1.logs }

/-- Accumulated run state across sub-goals. On `errored`, the trace/logs are
those up to the start of the failing sub-goal (the device effects inside it
are not recovered by the embedding; no proved property inspects them). -/
structure RunAcc where
  results : List SubRes
  g : Nat
  trace : List DeviceOp
  logs : List String
  errored : Bool

/-- The sub-goal iteration with first-failure abort (agent_runner.py:518-520)
and the surrounding `try/except` that turns any raised exception into a
failed run. -/
def runSubsAux (resp : Nat → List LLMItem) (maxSteps : Nat) :
    Nat → Nat → RunAcc → RunAcc
  | _, 0, acc => acc
  | idx, Nat.succ n, acc =>
      match runSubstep resp maxSteps idx acc.g acc.trace acc.logs with
      | Except.error _ => { acc with errored := true }
      | Except.ok so =>
          if so.res.ok then
            runSubsAux resp maxSteps (idx + 1) n
              { acc with
                results := acc.results ++ [so.res],
                g := so.g,
                trace := so.trace,
                logs := so.logs }
          else
            { acc with
              results := acc.results ++ [so.res],
              g := so.g,
              trace := so.trace,
              logs := so.logs ++ ["[Agent] Aborting after substep failed."] }

/-- The run summary (agent_runner.py:293-302, 522-529): on the normal path
`ok = all(s.get("ok") for s in substep_results) if substep_results else
False` and `executed = global_turn_index`; on an exception `ok = False` and
`executed` keeps its initial `0`. -/
structure Summary where
  ok : Bool
  executed : Nat
  substeps : List SubRes
  errored : Bool
  trace : List DeviceOp
  logs : List String

/-- `DEFAULT_MAX_STEPS` (agent_runner.py:58). -/
def DEFAULT_MAX_STEPS : Nat := 250

/-- The agent loop of `run_agent` (agent_runner.py:317-529) for a spec with
`numSubs` sub-goals, a turn budget of `maxSteps` (`MAX_AGENT_STEPS`,
environment-configurable with default `DEFAULT_MAX_STEPS`), and backend
behaviour `resp`. -/
def run_agent (resp : Nat → List LLMItem) (maxSteps : Nat) (numSubs : Nat) : Summary :=
  let acc := runSubsAux resp maxSteps 1 numSubs
    { results := [], g := 0, trace := [], logs := [], errored := false }
  if acc.errored then
    { ok := false, executed := 0, substeps := acc.results, errored := true,
      trace := acc.trace, logs := acc.logs }
  else
    { ok := !acc.results.isEmpty && acc.results.all (fun r => r.ok),
      executed := acc.g, substeps := acc.results, errored := false,
      trace := acc.trace, logs := acc.logs }

/-! ## Auxiliary definitions used by the verification statements -/

/-- The recognised `type` values of `map_computer_action`. -/
def isRecognizedType : PyVal → Bool
  | PyVal.str "click" => true
  | PyVal.str "double_click" => true
  | PyVal.str "drag" => true
  | PyVal.str "scroll" => true
  | PyVal.str "type" => true
  | PyVal.str "key" => true
  | PyVal.str "wait" => true
  | PyVal.str "screenshot" => true
  | _ => false

/-- The recognised `cmd` values of `execute_command`. -/
def isRecognizedCmd : PyVal → Bool
  | PyVal.str s =>
      s == "wait" || s == "tap" || s == "swipe" || s == "input_text" || s == "keyevent"
        || s == "back" || s == "home" || s == "screenshot" || s == "launch" || s == "stop"
  | _ => false

/-- Whether an embedded exception is the `Unknown command` `ValueError`
raised by `execute_command`, identified the way a caller would: a
`ValueError` whose message begins with the fixed 17-character prefix. -/
def isUnknownCmdErr : PyErr → Bool
  | PyErr.valueError m => m.data.take 17 = "Unknown command: ".data
  | _ => false

/-- `resp` for a backend that keeps emitting one action of unrecognized
type `"flip"`. -/
def respUnknownType : Nat → List LLMItem :=
  fun _ => [LLMItem.computerAction [("type", PyVal.str "flip")]]

/-- The claim C1 action: a click at `(100, 100)`. -/
def click100 : PyDict :=
  [("type", PyVal.str "click"), ("x", PyVal.int 100), ("y", PyVal.int 100)]

/-- `resp` for a backend that emits the identical click every turn. -/
def respClick100 : Nat → List LLMItem :=
  fun _ => [LLMItem.computerAction click100]

/-- `resp` for a backend that only ever produces reasoning text. -/
def respReasonOnly : Nat → List LLMItem :=
  fun _ => [LLMItem.reasoning "observing"]

/-- Device operations of one executed `click100` turn: pre-click marker,
the tap, the settle delay, then the observation screenshot for the next
turn. -/
def clickExecOps : List DeviceOp :=
  [DeviceOp.screenshotMarker 100 100, DeviceOp.tap 100 100,
    DeviceOp.waitBetweenActions, DeviceOp.screenshot]

/-- Device operations of a repetition-guard escape turn: the BACK key, the
settle delay, then the observation screenshot. -/
def backEscapeOps : List DeviceOp :=
  [DeviceOp.keyevent "4", DeviceOp.waitBetweenActions, DeviceOp.screenshot]

/-- Is this operation the claim C1 tap? -/
def isTap100 : DeviceOp → Bool
  | DeviceOp.tap 100 100 => true
  | _ => false

/-- Is this operation the BACK key escape (`device.keyevent("4")`)? -/
def isBackKey : DeviceOp → Bool
  | DeviceOp.keyevent "4" => true
  | _ => false

/-- A sub-goal state is well-signalled when `finished` can only be true with
an explicit success signal recorded. -/
def FinOk (st : LoopSt) : Prop := st.finished = true → st.explicitSuccess = Option.some true

/-- An output item that is not a successful end-test signal. -/
def itemNotSuccess : LLMItem → Bool
  | LLMItem.endTest s => !(s.getD false)
  | _ => true

/-- The concrete outcome of a 2-turn-budget sub-goal against a backend that
only produces reasoning text: budget exhausted, reported failed. -/
def reasonOnlySubOut : SubOut :=
  { res := { index := 1, ok := false, turns := 2 },
    g := 2,
    trace := [DeviceOp.screenshot, DeviceOp.screenshot, DeviceOp.screenshot],
    logs := ["[Agent] Turn 1", "[Agent] Reasoning: observing",
      "[Agent] turn executed actions", "[Agent] Turn 2",
      "[Agent] Reasoning: observing", "[Agent] turn executed actions"] }

/-! ## Shared helper lemmas -/

/-- Unfolding `Except` bind on a success value. -/
theorem exbind_ok {ε α β : Type} (a : α) (f : α → Except ε β) :
    (Bind.bind (Except.ok a) f : Except ε β) = f a := rfl

/-- Every character the placeholder substitution emits is on the allow-list. -/
theorem subUnsafe_all_safe (l : List Char) : (subUnsafe l).all safeChar = true := by
  induction l with
  | nil => rfl
  | cons c cs ih =>
      simp only [subUnsafe, List.map_cons, List.all_cons, Bool.and_eq_true] at ih ⊢
      refine ⟨?_, ih⟩
      by_cases h : safeChar c
      · simp [h]
      · simp [h]
        decide

/-- `replaceSpaces` is an append homomorphism. -/
theorem replaceSpaces_append (a b : List Char) :
    replaceSpaces (a ++ b) = replaceSpaces a ++ replaceSpaces b := by
  induction a with
  | nil => rfl
  | cons c cs ih => simp [replaceSpaces, ih]

/-! ## C9 — canvas dimensions -/

/-- C9: the canvas-dimension computation is a pure function of the physical
width/height and the rotation (the two code sites — the `ScreenInfo`
properties in types.py and the inline computation in the agent loop — agree
on every input, so evaluating either twice on the same rotation yields the
same pair), and rotations 90 and 270 swap the pair while 0 and 180 leave it
unswapped. -/
theorem canvas_dims_rotation_swap :
    (∀ w h r : Int,
      (ScreenInfo.canvas_width { physical_width := w, physical_height := h, rotation_deg := r },
        ScreenInfo.canvas_height { physical_width := w, physical_height := h, rotation_deg := r })
        = canvasDims w h r)
    ∧ (∀ w h : Int,
        canvasDims w h 90 = (h, w) ∧ canvasDims w h 270 = (h, w)
          ∧ canvasDims w h 0 = (w, h) ∧ canvasDims w h 180 = (w, h)) := by
  constructor
  · intro w h r
    by_cases hr : r = 90 ∨ r = 270
    · simp [ScreenInfo.canvas_width, ScreenInfo.canvas_height, canvasDims, hr]
    · simp [ScreenInfo.canvas_width, ScreenInfo.canvas_height, canvasDims, hr]
  · intro w h
    refine ⟨?_, ?_, ?_, ?_⟩ <;> simp [canvasDims]

/-! ## C3 — end-test handling inside a turn -/

/-- C3: in the per-turn item loop, an `EndTest` with `success=false` only
appends a log line and continues with the remaining items exactly as if the
item were absent (the sub-goal state, including `finished`, is untouched),
while an `EndTest` with `success=true` immediately marks the sub-goal
finished-successful, captures a final screenshot, and returns without
processing any of the remaining items (the result does not depend on
`rest`). -/
theorem end_test_false_ignored_true_terminates :
    (∀ (st : LoopSt) (rest : List LLMItem),
      processItems (LLMItem.endTest (Option.some false) :: rest) st =
        processItems rest { st with
          logs := st.logs ++
            ["[Agent] Ignored end_test call with success=false; continuing without finishing."] })
    ∧ (∀ (st : LoopSt) (rest : List LLMItem),
      processItems (LLMItem.endTest (Option.some true) :: rest) st =
        Except.ok { st with
          finished := true,
          explicitSuccess := Option.some true,
          trace := st.trace ++ [DeviceOp.screenshot],
          logs := st.logs ++ ["[Agent] end_test tool called. success=True"] }) :=
  ⟨fun _ _ => rfl, fun _ _ => rfl⟩

/-! ## C8 — text-input sanitisation -/

/-- C8: the sanitizer turns every space into the `%s` escape token and every
character outside the allow-list into the `'_'` placeholder, so the output
consists only of allow-list characters, and an input containing any
disallowed character (spaces included) never survives unmodified. -/
theorem sanitize_text_only_allowlist :
    (∀ s : String, (_sanitize_text_for_adb_input s).data = sanitizeChars s.data)
    ∧ (∀ cs : List Char, (sanitizeChars cs).all safeChar = true)
    ∧ (∀ a b : List Char,
        sanitizeChars (a ++ ' ' :: b) = sanitizeChars a ++ '%' :: 's' :: sanitizeChars b)
    ∧ (∀ cs : List Char, (∃ c ∈ cs, safeChar c = false) → sanitizeChars cs ≠ cs) := by
  have hall : ∀ cs : List Char, (sanitizeChars cs).all safeChar = true :=
    fun cs => subUnsafe_all_safe _
  refine ⟨fun _ => rfl, hall, ?_, ?_⟩
  · intro a b
    simp [sanitizeChars, replaceSpaces_append, replaceSpaces, subUnsafe]
    exact ⟨by decide, by decide⟩
  · intro cs hex heq
    rcases hex with ⟨c, hc, hcf⟩
    have h2 : cs.all safeChar = true := by rw [← heq]; exact hall cs
    have h3 := List.all_eq_true.mp h2 c hc
    rw [hcf] at h3
    exact Bool.false_ne_true h3

/-- Witness for C8's conditional conjunct at the concrete input
`"hi there!"` (contains a space and a `'!'`, both disallowed). -/
theorem sanitize_text_only_allowlist_witness :
    (∃ c ∈ ("hi there!".data), safeChar c = false)
      ∧ sanitizeChars ("hi there!".data) ≠ "hi there!".data :=
  ⟨by decide, sanitize_text_only_allowlist.2.2.2 _ (by decide)⟩

/-! ## C4 — backend-B drag normalisation -/

/-- C4 counterexample: the claim states that backend-B normalisation never
produces coordinate values absent from the input payload. For the concrete
payload `{action: "left_click"}` (no `coordinate` at all) the normaliser
returns a click at the fabricated default `(0, 0)` — values that appear
nowhere in the payload — so the universal no-fabrication property is false. -/
theorem normalize_action_fabricates_origin_counterexample :
    _normalize_action [("action", PyVal.str "left_click")] =
      Except.ok [("type", PyVal.str "click"), ("x", PyVal.int 0), ("y", PyVal.int 0)] := rfl

/-- C4 amended: for the claim's payload `{action: "left_click_drag",
coordinate: [x, y]}` with no `start_coordinate`, normalisation neither
errors nor invents a start point — it degrades to a zero-length drag that
uses the given coordinate as both start and end, so every coordinate in the
result comes from the payload. (In general, when `coordinate` itself is
missing the normaliser substitutes the fabricated default `(0,0)`, as the
counterexample shows.) -/
theorem normalize_drag_without_start_degrades :
    (∀ cx cy : Int,
      _normalize_action [("action", PyVal.str "left_click_drag"),
          ("coordinate", PyVal.list [PyVal.int cx, PyVal.int cy])] =
        Except.ok [("type", PyVal.str "drag"), ("x", PyVal.int cx), ("y", PyVal.int cy),
          ("x2", PyVal.int cx), ("y2", PyVal.int cy)])
    ∧ _normalize_action [("action", PyVal.str "left_click_drag"),
          ("coordinate", PyVal.list [PyVal.int 50, PyVal.int 50])] =
        Except.ok [("type", PyVal.str "drag"), ("x", PyVal.int 50), ("y", PyVal.int 50),
          ("x2", PyVal.int 50), ("y2", PyVal.int 50)] :=
  ⟨fun _ _ => rfl, rfl⟩

/-! ## C5 — unrecognized canonical action type -/

/-- C5 counterexample: the claim says an action with unrecognized `type`
makes `map_computer_action` return an error result; in fact the function
returns `None` — no status string at all — (together with no device
operation), so no error is reported. -/
theorem map_unknown_type_returns_none_counterexample :
    map_computer_action [("type", PyVal.str "flip")] =
      Except.ok (Option.none, []) := rfl

/-- C5 amended: for every action dict whose `type` is not one of the
recognised kinds, `map_computer_action` returns `None` (no status string,
hence also no error string) and performs no device call and raises nothing;
and in the agent loop such an action still counts as executed, so the turn
counter still advances — concretely, a backend that only ever emits the
unrecognized action drives a sub-goal through its full 2-turn budget. -/
theorem map_unknown_type_no_status_no_device_call :
    (∀ a : PyDict, isRecognizedType (pyGet a "type") = false →
      map_computer_action a = Except.ok (Option.none, []))
    ∧ (run_agent respUnknownType 2 1).executed = 2
    ∧ (run_agent respUnknownType 2 1).substeps =
        [{ index := 1, ok := false, turns := 2 }] := by
  refine ⟨?_, rfl, rfl⟩
  intro a h
  simp only [map_computer_action]
  split
  all_goals first
    | rfl
    | (rename_i heq; rw [heq] at h; simp [isRecognizedType] at h)

/-- Witness for C5's conditional conjunct at the concrete unrecognized
action `{type: "flip"}`. -/
theorem map_unknown_type_no_status_witness :
    isRecognizedType (pyGet [("type", PyVal.str "flip")] "type") = false
      ∧ map_computer_action [("type", PyVal.str "flip")] = Except.ok (Option.none, []) :=
  ⟨rfl, map_unknown_type_no_status_no_device_call.1 _ rfl⟩

/-! ## C7 — missing required fields as string errors -/

/-- C7 counterexample: the claim says every drag action without resolvable
end coordinates yields a string error result rather than raising; but the
code converts `duration_ms` with `int()` *before* checking the coordinates
(actions.py:75), so the coordinate-less drag `{type: "drag",
duration_ms: "abc"}` raises `ValueError` instead of returning an error
string. -/
theorem map_drag_bad_duration_raises_counterexample :
    map_computer_action [("type", PyVal.str "drag"), ("duration_ms", PyVal.str "abc")] =
      Except.error (PyErr.valueError (intParseMsg "abc")) := rfl

/-- C7 amended: for click/double-click without `x` or `y`, for drag whose
resolved coordinates (from `x`/`y`/`x2`/`y2` or the `path` fallback) are
incomplete, for scroll missing its point or either delta, and for key
without a key code, `map_computer_action` returns a string error result and
performs no device operation and raises nothing — provided, for the drag
and scroll kinds, that the `duration_ms` field (which is `int()`-converted
before the coordinate check) is absent or convertible; a non-numeric
`duration_ms` raises as the counterexample shows. -/
theorem map_missing_fields_error_string :
    (∀ a : PyDict, pyGet a "type" = PyVal.str "click" →
      (pyIsNone (pyGet a "x") = true ∨ pyIsNone (pyGet a "y") = true) →
      map_computer_action a = Except.ok (Option.some "error: missing coordinates", []))
    ∧ (∀ a : PyDict, pyGet a "type" = PyVal.str "double_click" →
      (pyIsNone (pyGet a "x") = true ∨ pyIsNone (pyGet a "y") = true) →
      map_computer_action a = Except.ok (Option.some "error: missing coordinates", []))
    ∧ (∀ (a : PyDict) (d : Int), pyGet a "type" = PyVal.str "drag" →
      pyInt (pyGetD a "duration_ms" (PyVal.int 300)) = Except.ok d →
      (pyIsNone (resolveDragCoords a).1 = true ∨ pyIsNone (resolveDragCoords a).2.1 = true
        ∨ pyIsNone (resolveDragCoords a).2.2.1 = true
        ∨ pyIsNone (resolveDragCoords a).2.2.2 = true) →
      map_computer_action a = Except.ok (Option.some "error: missing drag coordinates", []))
    ∧ (∀ (a : PyDict) (d : Int), pyGet a "type" = PyVal.str "scroll" →
      pyInt (pyGetD a "duration_ms" (PyVal.int 300)) = Except.ok d →
      (pyIsNone (pyGet a "x") = true ∨ pyIsNone (pyGet a "y") = true
        ∨ pyIsNone (scrollDx a) = true ∨ pyIsNone (scrollDy a) = true) →
      map_computer_action a = Except.ok (Option.some "error: missing scroll parameters", []))
    ∧ (∀ a : PyDict, pyGet a "type" = PyVal.str "key" →
      pyToStr (pyOr (pyOr (pyGet a "key") (pyGet a "code")) (PyVal.str "")) = "" →
      map_computer_action a = Except.ok (Option.some "error: missing key", [])) := by
  refine ⟨?_, ?_, ?_, ?_, ?_⟩
  · intro a ht hxy
    simp only [map_computer_action, ht]
    rw [if_pos hxy]
  · intro a ht hxy
    simp only [map_computer_action, ht]
    rw [if_pos hxy]
  · intro a d ht hd hmiss
    simp only [map_computer_action, ht, hd, exbind_ok]
    rw [if_pos hmiss]
  · intro a d ht hd hmiss
    simp only [map_computer_action, ht, hd, exbind_ok]
    rw [if_pos hmiss]
  · intro a ht hk
    simp only [map_computer_action, ht]
    rw [if_pos hk]

/-- Witness for C7's amended theorem at concrete field-less actions of each
kind. -/
theorem map_missing_fields_error_string_witness :
    map_computer_action [("type", PyVal.str "click")] =
        Except.ok (Option.some "error: missing coordinates", [])
    ∧ map_computer_action [("type", PyVal.str "double_click")] =
        Except.ok (Option.some "error: missing coordinates", [])
    ∧ map_computer_action [("type", PyVal.str "drag")] =
        Except.ok (Option.some "error: missing drag coordinates", [])
    ∧ map_computer_action [("type", PyVal.str "scroll")] =
        Except.ok (Option.some "error: missing scroll parameters", [])
    ∧ map_computer_action [("type", PyVal.str "key")] =
        Except.ok (Option.some "error: missing key", []) :=
  ⟨map_missing_fields_error_string.1 _ rfl (Or.inl rfl),
    map_missing_fields_error_string.2.1 _ rfl (Or.inl rfl),
    map_missing_fields_error_string.2.2.1 _ 300 rfl rfl (Or.inl rfl),
    map_missing_fields_error_string.2.2.2.1 _ 300 rfl rfl (Or.inl rfl),
    map_missing_fields_error_string.2.2.2.2 _ rfl rfl⟩

/-! ## C1 — repetition guard threshold -/

/-- C1 counterexample: the claim says that, starting fresh, the 10th of 10
consecutive identical clicks at `(100, 100)` is not executed and is replaced
by a BACK key event. In the 10-turn run in which the backend emits exactly
that click every turn, the device receives all 10 taps and no BACK key at
all: the counter (`repeat_count`) only reaches 9 on the 10th occurrence,
below the `>= 10` threshold (agent_runner.py:417-428). -/
theorem repetition_guard_tenth_click_executed :
    (run_agent respClick100 10 1).trace.countP isBackKey = 0
      ∧ (run_agent respClick100 10 1).trace.countP isTap100 = 10 := ⟨rfl, rfl⟩

/-- C1 amended: the escape fires on the 11th consecutive identical click,
not the 10th: in a 12-turn run of identical clicks the trace is the initial
screenshot, then 10 executed-click blocks, then the BACK escape block
(11th occurrence: not executed, replaced by BACK), then an executed click
block again (12th occurrence); after the escape the counter is reset to 0
(state after 11 turns) and the next identical occurrence counts again from
1 (state after 12 turns). -/
theorem repetition_guard_eleventh_click_replaced :
    (run_agent respClick100 12 1).trace =
      [DeviceOp.screenshot] ++ (List.replicate 10 clickExecOps).flatten
        ++ backEscapeOps ++ clickExecOps
    ∧ (runTurns respClick100 11 0 (initLoopSt [DeviceOp.screenshot] [])).map
        (fun r => (r.1.repeatCount, r.1.turnsThisSub)) = Except.ok (0, 11)
    ∧ (runTurns respClick100 12 0 (initLoopSt [DeviceOp.screenshot] [])).map
        (fun r => (r.1.repeatCount, r.1.turnsThisSub)) = Except.ok (1, 12) :=
  ⟨rfl, rfl, rfl⟩

/-! ## Loop lemmas (turn budget, sub-goal accounting) -/

/-- Item processing never touches the turn counter. -/
theorem processItems_turnsThisSub :
    ∀ (items : List LLMItem) (st st₂ : LoopSt),
      processItems items st = Except.ok st₂ → st₂.turnsThisSub = st.turnsThisSub := by
  intro items
  induction items with
  | nil =>
      intro st st₂ h
      simp only [processItems, Except.ok.injEq] at h
      rw [← h]
  | cons item rest ih =>
      intro st st₂ h
      cases item with
      | reasoning t =>
          simp only [processItems] at h
          exact (ih _ _ h).trans rfl
      | computerAction a =>
          simp only [processItems] at h
          split at h <;> split at h <;> try split at h
          all_goals first
            | cases h
            | exact (ih _ _ h).trans rfl
      | endTest s =>
          simp only [processItems] at h
          split at h
          · simp only [Except.ok.injEq] at h
            rw [← h]
          · exact (ih _ _ h).trans rfl

/-- Item processing preserves well-signalledness: the only write to
`finished` (the successful end-test) also records `explicit_success`. -/
theorem processItems_finOk :
    ∀ (items : List LLMItem) (st st₂ : LoopSt),
      FinOk st → processItems items st = Except.ok st₂ → FinOk st₂ := by
  intro items
  induction items with
  | nil =>
      intro st st₂ hf h
      simp only [processItems, Except.ok.injEq] at h
      rw [← h]; exact hf
  | cons item rest ih =>
      intro st st₂ hf h
      cases item with
      | reasoning t =>
          simp only [processItems] at h
          refine ih _ _ ?_ h
          exact hf
      | computerAction a =>
          simp only [processItems] at h
          split at h <;> split at h <;> try split at h
          all_goals first
            | cases h
            | (refine ih _ _ ?_ h
               exact hf)
      | endTest s =>
          simp only [processItems] at h
          split at h
          · simp only [Except.ok.injEq] at h
            rw [← h]
            intro _
            rfl
          · refine ih _ _ ?_ h
            exact hf

/-- Turn-loop accounting: within one sub-goal, the turn counter never
exceeds the budget, an unfinished loop consumes the whole budget, the
well-signalled invariant is preserved, and the global turn index advances
by exactly the number of turns taken. -/
theorem runTurns_spec (resp : Nat → List LLMItem) :
    ∀ (fuel g : Nat) (st st₂ : LoopSt) (g₂ : Nat),
      runTurns resp fuel g st = Except.ok (st₂, g₂) →
      st₂.turnsThisSub ≤ st.turnsThisSub + fuel
        ∧ (st₂.finished = false → st₂.turnsThisSub = st.turnsThisSub + fuel)
        ∧ (FinOk st → FinOk st₂)
        ∧ g₂ + st.turnsThisSub = g + st₂.turnsThisSub := by
  intro fuel
  induction fuel with
  | zero =>
      intro g st st₂ g₂ h
      simp only [runTurns, Except.ok.injEq, Prod.mk.injEq] at h
      obtain ⟨h1, h2⟩ := h
      subst h1
      subst h2
      exact ⟨by omega, fun _ => rfl, fun hf => hf, rfl⟩
  | succ fuel ih =>
      intro g st st₂ g₂ h
      simp only [runTurns] at h
      split at h
      · rename_i hfin
        simp only [Except.ok.injEq, Prod.mk.injEq] at h
        obtain ⟨h1, h2⟩ := h
        subst h1
        subst h2
        refine ⟨by omega, ?_, fun hf => hf, rfl⟩
        intro hf2
        rw [hf2] at hfin
        exact (Bool.false_ne_true hfin).elim
      · rename_i hfin
        split at h
        · cases h
        · rename_i st' hpi
          have hturns : st'.turnsThisSub = st.turnsThisSub + 1 :=
            (processItems_turnsThisSub _ _ _ hpi).trans rfl
          have hinv : FinOk st → FinOk st' := by
            intro hf
            refine processItems_finOk _ _ _ ?_ hpi
            exact hf
          split at h
          · rename_i hfin2
            simp only [Except.ok.injEq, Prod.mk.injEq] at h
            obtain ⟨h1, h2⟩ := h
            have hst : st₂.turnsThisSub = st'.turnsThisSub := by rw [← h1]
            have hstf : st₂.finished = st'.finished := by rw [← h1]
            have hste : st₂.explicitSuccess = st'.explicitSuccess := by rw [← h1]
            refine ⟨by omega, ?_, ?_, by omega⟩
            · intro hf2
              rw [hstf] at hf2
              rw [hf2] at hfin2
              cases hfin2
            · intro hf
              intro hfin3
              rw [hstf] at hfin3
              rw [hste]
              exact hinv hf hfin3
          · rename_i hfin2
            have hrec := ih (g + 1) _ st₂ g₂ h
            obtain ⟨r1, r2, r3, r4⟩ := hrec
            have ht3 : (({ st' with
                trace := st'.trace ++ [DeviceOp.screenshot],
                logs := st'.logs ++ ["[Agent] turn executed actions"] } : LoopSt)).turnsThisSub
                = st.turnsThisSub + 1 := hturns
            refine ⟨by omega, ?_, ?_, by omega⟩
            · intro hf2
              have := r2 hf2
              omega
            · intro hf
              refine r3 ?_
              intro hfin3
              exact hinv hf hfin3

/-- Sub-goal accounting: a sub-goal that returns (rather than raising)
took at most `maxSteps` turns, a failed one took exactly `maxSteps` turns,
the new global index advanced by the turn count, and the recorded index is
the requested one. -/
theorem runSubstep_spec (resp : Nat → List LLMItem) (maxSteps idx g : Nat)
    (trace : List DeviceOp) (logs : List String) (so : SubOut) :
    runSubstep resp maxSteps idx g trace logs = Except.ok so →
    so.res.turns ≤ maxSteps ∧ (so.res.ok = false → so.res.turns = maxSteps)
      ∧ so.g = g + so.res.turns ∧ so.res.index = idx := by
  intro h
  simp only [runSubstep] at h
  split at h
  · cases h
  · rename_i r hr
    have hspec := runTurns_spec resp maxSteps g _ r.1 r.2 hr
    obtain ⟨s1, s2, s3, s4⟩ := hspec
    simp only [Except.ok.injEq] at h
    have hturns : so.res.turns = r.1.turnsThisSub := by rw [← h]
    have hok : so.res.ok = r.1.explicitSuccess.getD false := by rw [← h]
    have hg : so.g = r.2 := by rw [← h]
    have hidx : so.res.index = idx := by rw [← h]
    have hinit_turns : (initLoopSt (trace ++ [DeviceOp.screenshot]) logs).turnsThisSub = 0 := rfl
    have hinit_fin : FinOk (initLoopSt (trace ++ [DeviceOp.screenshot]) logs) := by
      intro hh
      exact (Bool.false_ne_true hh).elim
    refine ⟨by omega, ?_, by omega, hidx⟩
    intro hokf
    rw [hok] at hokf
    have hfin : r.1.finished = false := by
      by_contra hc
      have hc2 : r.1.finished = true := by
        cases hcf : r.1.finished
        · exact absurd hcf hc
        · rfl
      have := s3 hinit_fin hc2
      rw [this] at hokf
      simp at hokf
    have := s2 hfin
    omega

/-- Processing items none of which is a successful end-test leaves the
termination flags untouched. -/
theorem processItems_noSuccess :
    ∀ (items : List LLMItem) (st st₂ : LoopSt),
      items.all itemNotSuccess = true → processItems items st = Except.ok st₂ →
      st₂.finished = st.finished ∧ st₂.explicitSuccess = st.explicitSuccess := by
  intro items
  induction items with
  | nil =>
      intro st st₂ _ h
      simp only [processItems, Except.ok.injEq] at h
      rw [← h]
      exact ⟨rfl, rfl⟩
  | cons item rest ih =>
      intro st st₂ hall h
      simp only [List.all_cons, Bool.and_eq_true] at hall
      obtain ⟨h1, h2⟩ := hall
      cases item with
      | reasoning t =>
          simp only [processItems] at h
          exact ⟨((ih _ _ h2 h).1).trans rfl, ((ih _ _ h2 h).2).trans rfl⟩
      | computerAction a =>
          simp only [processItems] at h
          split at h <;> split at h <;> try split at h
          all_goals first
            | cases h
            | exact ⟨((ih _ _ h2 h).1).trans rfl, ((ih _ _ h2 h).2).trans rfl⟩
      | endTest s =>
          simp only [itemNotSuccess, Bool.not_eq_true'] at h1
          simp only [processItems, h1] at h
          exact ⟨((ih _ _ h2 h).1).trans rfl, ((ih _ _ h2 h).2).trans rfl⟩

/-- A backend that never signals success leaves the turn loop's
termination flags untouched. -/
theorem runTurns_noSuccess (resp : Nat → List LLMItem)
    (hresp : ∀ k, (resp k).all itemNotSuccess = true) :
    ∀ (fuel g : Nat) (st st₂ : LoopSt) (g₂ : Nat),
      runTurns resp fuel g st = Except.ok (st₂, g₂) →
      st₂.finished = st.finished ∧ st₂.explicitSuccess = st.explicitSuccess := by
  intro fuel
  induction fuel with
  | zero =>
      intro g st st₂ g₂ h
      simp only [runTurns, Except.ok.injEq, Prod.mk.injEq] at h
      rw [← h.1]
      exact ⟨rfl, rfl⟩
  | succ fuel ih =>
      intro g st st₂ g₂ h
      simp only [runTurns] at h
      split at h
      · simp only [Except.ok.injEq, Prod.mk.injEq] at h
        rw [← h.1]
        exact ⟨rfl, rfl⟩
      · rename_i hnf
        split at h
        · cases h
        · rename_i st' hpi
          have hps := processItems_noSuccess _ _ _ (hresp (g + 1)) hpi
          split at h
          · rename_i hfin2
            rw [hps.1] at hfin2
            exact absurd hfin2 hnf
          · have hrec := ih (g + 1) _ st₂ g₂ h
            exact ⟨(hrec.1).trans hps.1, (hrec.2).trans hps.2⟩

/-! ## C6 — per-sub-goal turn budget -/

/-- C6: the default turn budget is 250 (`DEFAULT_MAX_STEPS`); every
sub-goal run that returns normally took at most `maxSteps` turns and, when
reported failed, consumed exactly the whole budget; and against a backend
that never emits an `EndTest` with `success=true`, the sub-goal always
terminates as an ordinary failed result with the full budget as its
recorded turn count — a return value, not a raised error. -/
theorem turn_budget_bounds_subgoal :
    DEFAULT_MAX_STEPS = 250
      ∧ (∀ (resp : Nat → List LLMItem) (maxSteps idx g : Nat)
          (trace : List DeviceOp) (logs : List String) (so : SubOut),
          runSubstep resp maxSteps idx g trace logs = Except.ok so →
          so.res.turns ≤ maxSteps ∧ (so.res.ok = false → so.res.turns = maxSteps))
      ∧ (∀ (resp : Nat → List LLMItem) (maxSteps idx g : Nat)
          (trace : List DeviceOp) (logs : List String) (so : SubOut),
          (∀ k, (resp k).all itemNotSuccess = true) →
          runSubstep resp maxSteps idx g trace logs = Except.ok so →
          so.res.ok = false ∧ so.res.turns = maxSteps) := by
  refine ⟨rfl, ?_, ?_⟩
  · intro resp maxSteps idx g trace logs so h
    exact ⟨(runSubstep_spec resp maxSteps idx g trace logs so h).1,
      (runSubstep_spec resp maxSteps idx g trace logs so h).2.1⟩
  · intro resp maxSteps idx g trace logs so hresp h
    have hspec := runSubstep_spec resp maxSteps idx g trace logs so h
    simp only [runSubstep] at h
    split at h
    · cases h
    · rename_i r hr
      have hns := runTurns_noSuccess resp hresp maxSteps g _ r.1 r.2 hr
      have hinit : (initLoopSt (trace ++ [DeviceOp.screenshot]) logs).explicitSuccess
          = Option.none := rfl
      have hexp : r.1.explicitSuccess = Option.none := (hns.2).trans hinit
      simp only [Except.ok.injEq] at h
      have hok : so.res.ok = r.1.explicitSuccess.getD false := by rw [← h]
      rw [hexp] at hok
      simp only [Option.getD_none] at hok
      exact ⟨hok, hspec.2.1 hok⟩

/-- Witness for C6's conditional conjunct at the concrete 2-turn exhausted
sub-goal. -/
theorem turn_budget_bounds_subgoal_witness :
    runSubstep respReasonOnly 2 1 0 [] [] = Except.ok reasonOnlySubOut
      ∧ reasonOnlySubOut.res.turns ≤ 2
      ∧ (reasonOnlySubOut.res.ok = false → reasonOnlySubOut.res.turns = 2)
      ∧ (reasonOnlySubOut.res.ok = false ∧ reasonOnlySubOut.res.turns = 2) :=
  ⟨rfl, (turn_budget_bounds_subgoal.2.1 respReasonOnly 2 1 0 [] [] reasonOnlySubOut rfl).1,
    (turn_budget_bounds_subgoal.2.1 respReasonOnly 2 1 0 [] [] reasonOnlySubOut rfl).2,
    turn_budget_bounds_subgoal.2.2 respReasonOnly 2 1 0 [] [] reasonOnlySubOut
      (fun _ => rfl) rfl⟩

/-- Sub-goal iteration accounting. Starting from a non-errored accumulator,
the iteration appends a block `news` of recorded sub-goal results such that:
at most one result per requested sub-goal is recorded; if an exception
ended the run, every recorded result was successful and at least one
requested sub-goal is missing; on a normal return, either all requested
sub-goals ran and succeeded, or the block ends with its only failure and
nothing follows it; and on a normal return the global turn index advanced
by exactly the recorded turn total. -/
theorem runSubsAux_spec (resp : Nat → List LLMItem) (maxSteps : Nat) :
    ∀ (n idx : Nat) (acc : RunAcc), acc.errored = false →
      ∃ news : List SubRes,
        (runSubsAux resp maxSteps idx n acc).results = acc.results ++ news
        ∧ news.length ≤ n
        ∧ ((runSubsAux resp maxSteps idx n acc).errored = true →
            news.all (fun r => r.ok) = true ∧ news.length < n)
        ∧ ((runSubsAux resp maxSteps idx n acc).errored = false →
            ((news.length = n ∧ news.all (fun r => r.ok) = true)
              ∨ (∃ pre last, news = pre ++ [last]
                  ∧ pre.all (fun r => r.ok) = true ∧ last.ok = false)))
        ∧ ((runSubsAux resp maxSteps idx n acc).errored = false →
            (runSubsAux resp maxSteps idx n acc).g
              = acc.g + (news.map (fun r => r.turns)).sum) := by
  intro n
  induction n with
  | zero =>
      intro idx acc hacc
      refine ⟨[], by simp [runSubsAux], by simp, ?_, ?_, by simp [runSubsAux]⟩
      · intro he
        rw [show runSubsAux resp maxSteps idx 0 acc = acc from rfl] at he
        rw [hacc] at he
        cases he
      · intro _
        left
        exact ⟨rfl, rfl⟩
  | succ n ih =>
      intro idx acc hacc
      cases hsub : runSubstep resp maxSteps idx acc.g acc.trace acc.logs with
      | error e =>
          have hout : runSubsAux resp maxSteps idx (n + 1) acc
              = { acc with errored := true } := by
            simp [runSubsAux, hsub]
          refine ⟨[], by simp [hout], by simp, ?_, ?_, ?_⟩
          · intro _
            exact ⟨rfl, Nat.succ_pos n⟩
          · intro hf
            rw [hout] at hf
            cases hf
          · intro hf
            rw [hout] at hf
            cases hf
      | ok so =>
          have hsubspec := runSubstep_spec resp maxSteps idx acc.g acc.trace acc.logs so hsub
          by_cases hok : so.res.ok = true
          · have hout : runSubsAux resp maxSteps idx (n + 1) acc
                = runSubsAux resp maxSteps (idx + 1) n
                    { acc with
                      results := acc.results ++ [so.res],
                      g := so.g,
                      trace := so.trace,
                      logs := so.logs } := by
              simp [runSubsAux, hsub, hok]
            obtain ⟨news, a1, a2, a3, a4, a5⟩ :=
              ih (idx + 1)
                { acc with
                  results := acc.results ++ [so.res],
                  g := so.g,
                  trace := so.trace,
                  logs := so.logs } hacc
            refine ⟨so.res :: news, ?_, by simp [a2], ?_, ?_, ?_⟩
            · rw [hout, a1]
              simp
            · intro he
              rw [hout] at he
              obtain ⟨b1, b2⟩ := a3 he
              refine ⟨by simp [hok, b1], by simp only [List.length_cons]; omega⟩
            · intro hf
              rw [hout] at hf
              rcases a4 hf with ⟨c1, c2⟩ | ⟨pre, last, c1, c2, c3⟩
              · left
                exact ⟨by simp [c1], by simp [hok, c2]⟩
              · right
                exact ⟨so.res :: pre, last, by simp [c1], by simp [hok, c2], c3⟩
            · intro hf
              rw [hout] at hf ⊢
              have := a5 hf
              rw [this]
              simp only [List.map_cons, List.sum_cons]
              have hg := hsubspec.2.2.1
              omega
          · have hokf : so.res.ok = false := Bool.eq_false_iff.mpr hok
            have hout : runSubsAux resp maxSteps idx (n + 1) acc
                = { acc with
                    results := acc.results ++ [so.res],
                    g := so.g,
                    trace := so.trace,
                    logs := so.logs ++ ["[Agent] Aborting after substep failed."] } := by
              simp [runSubsAux, hsub, hokf]
            refine ⟨[so.res], by simp [hout], by simp, ?_, ?_, ?_⟩
            · intro he
              rw [hout] at he
              rw [hacc] at he
              cases he
            · intro _
              right
              exact ⟨[], so.res, by simp, rfl, hokf⟩
            · intro _
              rw [hout]
              have hg := hsubspec.2.2.1
              simp only [List.map_cons, List.map_nil, List.sum_cons, List.sum_nil]
              omega

/-! ## C2 — overall success and sub-goal sequencing -/

/-- C2: for every multi-sub-goal run, the overall success flag is true iff
every one of the `n` requested sub-goals was recorded and reported success;
every recorded sub-goal result before the last reports success (so nothing
runs after the first sub-goal that ended without an explicit success
signal); at most one result is recorded per requested sub-goal; and on a
run without a raised exception the executed global turn count is exactly
the sum of the recorded sub-goals' turn counts — in particular, a sub-goal
that never appears in the record contributed no turns. -/
theorem run_success_iff_all_subgoals (resp : Nat → List LLMItem) (maxSteps n : Nat)
    (hn : 1 ≤ n) :
    ((run_agent resp maxSteps n).ok = true ↔
      ((run_agent resp maxSteps n).substeps.length = n
        ∧ (run_agent resp maxSteps n).substeps.all (fun r => r.ok) = true))
    ∧ (∀ r ∈ (run_agent resp maxSteps n).substeps.dropLast, r.ok = true)
    ∧ (run_agent resp maxSteps n).substeps.length ≤ n
    ∧ ((run_agent resp maxSteps n).errored = false →
        (run_agent resp maxSteps n).executed
          = ((run_agent resp maxSteps n).substeps.map (fun r => r.turns)).sum) := by
  obtain ⟨news, a1, a2, a3, a4, a5⟩ :=
    runSubsAux_spec resp maxSteps n 1
      { results := [], g := 0, trace := [], logs := [], errored := false } rfl
  simp only [List.nil_append] at a1
  by_cases he :
      (runSubsAux resp maxSteps 1 n
        { results := [], g := 0, trace := [], logs := [], errored := false }).errored = true
  · obtain ⟨b1, b2⟩ := a3 he
    simp only [run_agent]
    rw [if_pos he]
    refine ⟨?_, ?_, ?_, ?_⟩
    · simp only [a1]
      constructor
      · intro hfalse
        cases hfalse
      · intro ⟨hlen, _⟩
        omega
    · intro r hr
      have hrm : r ∈ news := by
        rw [a1] at hr
        exact (List.dropLast_sublist news).subset hr
      exact List.all_eq_true.mp b1 r hrm
    · simp only [a1]
      omega
    · intro hf
      cases hf
  · have he2 :
        (runSubsAux resp maxSteps 1 n
          { results := [], g := 0, trace := [], logs := [], errored := false }).errored
          = false := Bool.eq_false_iff.mpr he
    simp only [run_agent]
    rw [if_neg he]
    refine ⟨?_, ?_, ?_, ?_⟩
    · simp only [a1]
      rcases a4 he2 with ⟨hlen, hall⟩ | ⟨pre, last, hnews, hpre, hlast⟩
      · constructor
        · intro _
          exact ⟨hlen, hall⟩
        · intro _
          have hne : ¬ news.isEmpty = true := by
            intro hemp
            rw [List.isEmpty_iff.mp hemp] at hlen
            simp at hlen
            omega
          simp [hne, hall]
      · have hallf : news.all (fun r => r.ok) = false := by
          rw [hnews]
          have : last.ok = false := hlast
          simp [List.all_append, this]
        constructor
        · intro htrue
          simp [hallf] at htrue
        · intro ⟨_, hall2⟩
          rw [hallf] at hall2
          cases hall2
    · intro r hr
      simp only [a1] at hr
      rcases a4 he2 with ⟨_, hall⟩ | ⟨pre, last, hnews, hpre, _⟩
      · exact List.all_eq_true.mp hall r ((List.dropLast_sublist news).subset hr)
      · rw [hnews, List.dropLast_concat] at hr
        exact List.all_eq_true.mp hpre r hr
    · simp only [a1]
      omega
    · intro _
      simp only [a1]
      simpa using a5 he2

/-- Witness for C2 at the claim's concrete scenario: two sub-goals, a
1-turn budget, a backend that never signals success. Sub-goal 1 exhausts
its budget, sub-goal 2 is never recorded and contributes no turns, and the
run is failed overall. -/
theorem run_success_iff_all_subgoals_witness :
    (run_agent respReasonOnly 1 2).substeps = [{ index := 1, ok := false, turns := 1 }]
    ∧ (run_agent respReasonOnly 1 2).ok = false
    ∧ (run_agent respReasonOnly 1 2).executed = 1
    ∧ ((run_agent respReasonOnly 1 2).errored = false →
        (run_agent respReasonOnly 1 2).executed
          = ((run_agent respReasonOnly 1 2).substeps.map (fun r => r.turns)).sum) :=
  ⟨rfl, rfl, rfl, (run_success_iff_all_subgoals respReasonOnly 1 2 (by decide)).2.2.2⟩

/-! ## C10 helper lemmas — error shapes of the deterministic dispatcher -/

/-- Unfolding `Except` bind on an error value. -/
theorem exbind_err {ε α β : Type} (e : ε) (f : α → Except ε β) :
    (Bind.bind (Except.error e) f : Except ε β) = Except.error e := rfl

/-- A `ValueError` whose message extends a 17-or-more-character head that is
not `"Unknown command: "` is not the unknown-command error. -/
theorem unknown_prefix_ne (p q : String) (hp : 17 ≤ p.data.length)
    (hne : ¬ p.data.take 17 = "Unknown command: ".data) :
    isUnknownCmdErr (PyErr.valueError (p ++ q)) = false := by
  simp only [isUnknownCmdErr]
  have hP : (p ++ q).data.take 17 = p.data.take 17 := by
    rw [String.data_append]
    exact List.take_append_of_le_length hp
  refine decide_eq_false ?_
  rw [hP]
  exact hne

/-- The `int()` parse error is not the unknown-command error. -/
theorem isUnknownCmdErr_intParse (s : String) :
    isUnknownCmdErr (PyErr.valueError (intParseMsg s)) = false := by
  have h1 : intParseMsg s
      = "invalid literal for int() with base 10: '" ++ (s ++ "'") := by
    simp [intParseMsg, String.append_assoc]
  rw [h1]
  exact unknown_prefix_ne _ _ (by decide) (by decide)

/-- No exception raised by `pyInt` is the unknown-command error. -/
theorem pyInt_error_not_unknown (v : PyVal) (e : PyErr) :
    pyInt v = Except.error e → isUnknownCmdErr e = false := by
  intro h
  cases v with
  | int n => cases h
  | bool b => cases h
  | str s =>
      simp only [pyInt] at h
      split at h
      · cases h
      · simp only [Except.error.injEq] at h
        rw [← h]
        exact isUnknownCmdErr_intParse s
  | none =>
      simp only [pyInt, Except.error.injEq] at h
      rw [← h]
      rfl
  | list xs =>
      simp only [pyInt, Except.error.injEq] at h
      rw [← h]
      rfl
  | dict xs =>
      simp only [pyInt, Except.error.injEq] at h
      rw [← h]
      rfl

/-- No exception raised by `pyFloatCheck` is the unknown-command error. -/
theorem pyFloatCheck_error_not_unknown (v : PyVal) (e : PyErr) :
    pyFloatCheck v = Except.error e → isUnknownCmdErr e = false := by
  intro h
  cases v with
  | int n => cases h
  | bool b => cases h
  | str s =>
      simp only [pyFloatCheck] at h
      split at h
      · cases h
      · simp only [Except.error.injEq] at h
        rw [← h]
        have h1 : "could not convert string to float: '" ++ s ++ "'"
            = "could not convert string to float: '" ++ (s ++ "'") := by
          rw [String.append_assoc]
        rw [h1]
        exact unknown_prefix_ne _ _ (by decide) (by decide)
  | none =>
      simp only [pyFloatCheck, Except.error.injEq] at h
      rw [← h]
      rfl
  | list xs =>
      simp only [pyFloatCheck, Except.error.injEq] at h
      rw [← h]
      rfl
  | dict xs =>
      simp only [pyFloatCheck, Except.error.injEq] at h
      rw [← h]
      rfl

/-- No exception raised by subscripting is the unknown-command error. -/
theorem pySubscript_error_not_unknown (d : PyDict) (k : String) (e : PyErr) :
    pySubscript d k = Except.error e → isUnknownCmdErr e = false := by
  intro h
  simp only [pySubscript] at h
  split at h
  · simp only [Except.error.injEq] at h
    rw [← h]
    rfl
  · cases h

/-- No exception raised by the `Path()` check is the unknown-command error. -/
theorem pyPathCheck_error_not_unknown (v : PyVal) (e : PyErr) :
    pyPathCheck v = Except.error e → isUnknownCmdErr e = false := by
  intro h
  cases v <;> simp only [pyPathCheck, Except.error.injEq] at h <;>
    first
      | (rw [← h]; rfl)
      | cases h

/-- If neither operand of a bind can raise the unknown-command error,
neither can the bind. -/
theorem exbind_error_not_unknown {α β : Type} (m : Except PyErr α) (f : α → Except PyErr β)
    (hm : ∀ e, m = Except.error e → isUnknownCmdErr e = false)
    (hf : ∀ a e, f a = Except.error e → isUnknownCmdErr e = false)
    (e : PyErr) (h : Bind.bind m f = Except.error e) : isUnknownCmdErr e = false := by
  cases hm2 : m with
  | error e1 =>
      rw [hm2, exbind_err] at h
      simp only [Except.error.injEq] at h
      rw [← h]
      exact hm e1 hm2
  | ok a =>
      rw [hm2, exbind_ok] at h
      exact hf a e h

/-- A value distinct from each recognised command string is unrecognised. -/
theorem isRecognizedCmd_eq_false_of_ne (v : PyVal)
    (h1 : v ≠ PyVal.str "wait") (h2 : v ≠ PyVal.str "tap")
    (h3 : v ≠ PyVal.str "swipe") (h4 : v ≠ PyVal.str "input_text")
    (h5 : v ≠ PyVal.str "keyevent") (h6 : v ≠ PyVal.str "back")
    (h7 : v ≠ PyVal.str "home") (h8 : v ≠ PyVal.str "screenshot")
    (h9 : v ≠ PyVal.str "launch") (h10 : v ≠ PyVal.str "stop") :
    isRecognizedCmd v = false := by
  cases v with
  | str s =>
      have n1 : s ≠ "wait" := fun hs => h1 (by rw [hs])
      have n2 : s ≠ "tap" := fun hs => h2 (by rw [hs])
      have n3 : s ≠ "swipe" := fun hs => h3 (by rw [hs])
      have n4 : s ≠ "input_text" := fun hs => h4 (by rw [hs])
      have n5 : s ≠ "keyevent" := fun hs => h5 (by rw [hs])
      have n6 : s ≠ "back" := fun hs => h6 (by rw [hs])
      have n7 : s ≠ "home" := fun hs => h7 (by rw [hs])
      have n8 : s ≠ "screenshot" := fun hs => h8 (by rw [hs])
      have n9 : s ≠ "launch" := fun hs => h9 (by rw [hs])
      have n10 : s ≠ "stop" := fun hs => h10 (by rw [hs])
      simp [isRecognizedCmd, n1, n2, n3, n4, n5, n6, n7, n8, n9, n10]
  | none => rfl
  | bool b => rfl
  | int n => rfl
  | list xs => rfl
  | dict xs => rfl

/-! ## C10 — deterministic command dispatch guard -/

set_option maxHeartbeats 2000000 in
/-- C10: a deterministic command dict whose `cmd` is absent, `None`, or the
empty string makes `execute_command` return immediately — no device
operation, nothing raised; a present, truthy but unrecognized `cmd` raises
exactly the unknown-command `ValueError`; and no recognized command can
ever raise the unknown-command error (its exceptions are key errors,
conversion errors, or type errors), so only the falsy-guard-passing
unrecognized values reach that raise. -/
theorem execute_command_unknown_gate :
    (∀ (step : PyDict) (pkg : String),
      (pyLookup step "cmd" = Option.none ∨ pyLookup step "cmd" = Option.some PyVal.none
        ∨ pyLookup step "cmd" = Option.some (PyVal.str "")) →
      execute_command step pkg = Except.ok [])
    ∧ (∀ (step : PyDict) (pkg : String),
        pyTruthy (pyGet step "cmd") = true → isRecognizedCmd (pyGet step "cmd") = false →
        execute_command step pkg
          = Except.error (PyErr.valueError ("Unknown command: " ++ pyToStr (pyGet step "cmd"))))
    ∧ (∀ (step : PyDict) (pkg : String) (e : PyErr),
        isRecognizedCmd (pyGet step "cmd") = true →
        execute_command step pkg = Except.error e → isUnknownCmdErr e = false) := by
  refine ⟨?_, ?_, ?_⟩
  · intro step pkg h
    have htr : pyTruthy (pyGet step "cmd") = false := by
      rcases h with h | h | h
      · cases hf : step.find? (fun kv => kv.fst = "cmd") with
        | none => simp [pyGet, hf, pyTruthy]
        | some kv => simp [pyLookup, hf] at h
      · cases hf : step.find? (fun kv => kv.fst = "cmd") with
        | none => simp [pyGet, hf, pyTruthy]
        | some kv =>
            simp [pyLookup, hf] at h
            simp [pyGet, hf, h, pyTruthy]
      · cases hf : step.find? (fun kv => kv.fst = "cmd") with
        | none => simp [pyGet, hf, pyTruthy]
        | some kv =>
            simp [pyLookup, hf] at h
            simp [pyGet, hf, h, pyTruthy]
    simp only [execute_command]
    rw [if_pos (by simp [htr])]
  · intro step pkg ht hnr
    simp only [execute_command]
    rw [if_neg (by simp [ht])]
    split
    all_goals first
      | rfl
      | (rename_i heq
         rw [heq] at hnr
         simp [isRecognizedCmd] at hnr)
  · intro step pkg e hrec herr
    simp only [execute_command] at herr
    by_cases ht : pyTruthy (pyGet step "cmd") = true
    · rw [if_neg (by simp [ht])] at herr
      split at herr
      · exact exbind_error_not_unknown _ _
          (pyFloatCheck_error_not_unknown _)
          (fun a e2 h2 => Except.noConfusion h2) e herr
      · exact exbind_error_not_unknown _ _
          (pySubscript_error_not_unknown step "x")
          (fun xv => exbind_error_not_unknown _ _ (pyInt_error_not_unknown xv)
            (fun x => exbind_error_not_unknown _ _ (pySubscript_error_not_unknown step "y")
              (fun yv => exbind_error_not_unknown _ _ (pyInt_error_not_unknown yv)
                (fun y e2 h2 => Except.noConfusion h2)))) e herr
      · exact exbind_error_not_unknown _ _
          (fun e2 h2 => exbind_error_not_unknown _ _
            (pySubscript_error_not_unknown step "x1") pyInt_error_not_unknown e2 h2)
          (fun x1 => exbind_error_not_unknown _ _
            (fun e2 h2 => exbind_error_not_unknown _ _
              (pySubscript_error_not_unknown step "y1") pyInt_error_not_unknown e2 h2)
            (fun y1 => exbind_error_not_unknown _ _
              (fun e2 h2 => exbind_error_not_unknown _ _
                (pySubscript_error_not_unknown step "x2") pyInt_error_not_unknown e2 h2)
              (fun x2 => exbind_error_not_unknown _ _
                (fun e2 h2 => exbind_error_not_unknown _ _
                  (pySubscript_error_not_unknown step "y2") pyInt_error_not_unknown e2 h2)
                (fun y2 => exbind_error_not_unknown _ _
                  (pyInt_error_not_unknown _)
                  (fun dur e2 h2 => Except.noConfusion h2))))) e herr
      · exact exbind_error_not_unknown _ _
          (pySubscript_error_not_unknown step "text")
          (fun t e2 h2 => Except.noConfusion h2) e herr
      · exact Except.noConfusion herr
      · exact Except.noConfusion herr
      · exact Except.noConfusion herr
      · exact exbind_error_not_unknown _ _
          (pySubscript_error_not_unknown step "path")
          (fun p => exbind_error_not_unknown _ _ (pyPathCheck_error_not_unknown p)
            (fun u e2 h2 => Except.noConfusion h2)) e herr
      · exact Except.noConfusion herr
      · exact Except.noConfusion herr
      · rename_i hn1 hn2 hn3 hn4 hn5 hn6 hn7 hn8 hn9 hn10
        have hfalse : isRecognizedCmd (pyGet step "cmd") = false :=
          isRecognizedCmd_eq_false_of_ne _ hn1 hn2 hn3 hn4 hn5 hn6 hn7 hn8 hn9 hn10
        rw [hfalse] at hrec
        cases hrec
    · rw [if_pos (by simp [ht])] at herr
      exact Except.noConfusion herr

/-- Witness for C10 at concrete inputs: an empty dict (absent `cmd`), the
unrecognized `cmd: "bogus"`, and a recognized `tap` whose missing `x`
raises a `KeyError` — which is not the unknown-command error. -/
theorem execute_command_unknown_gate_witness :
    execute_command [] "pkg" = Except.ok []
    ∧ execute_command [("cmd", PyVal.str "bogus")] "pkg"
        = Except.error (PyErr.valueError
            ("Unknown command: " ++ pyToStr (pyGet [("cmd", PyVal.str "bogus")] "cmd")))
    ∧ isUnknownCmdErr (PyErr.keyError "x") = false :=
  ⟨execute_command_unknown_gate.1 [] "pkg" (Or.inl rfl),
    execute_command_unknown_gate.2.1 [("cmd", PyVal.str "bogus")] "pkg" rfl rfl,
    execute_command_unknown_gate.2.2 [("cmd", PyVal.str "tap")] "pkg"
      (PyErr.keyError "x") rfl rfl⟩
